import Mathlib

/-!
Shallow embedding of the AI interviewer service (`src/main.py`) and proofs
of its specified properties.

Modelling conventions:
* `JavaSpringBootKnowledgeBase._run` returns `json.dumps` of a list of
  strings and every caller immediately applies `json.loads`; the JSON
  round trip is the identity on these lists, so the embedding returns the
  list directly.
* The LLM gateway (`crew.kickoff()` on a `Task`) is an opaque external
  call that either returns generated text or raises.  It is modelled as a
  parameter `gw : String → Except Unit String` applied to the task
  description built by the handler; `Except.error ()` stands for any
  raised exception.
* `random.choice(questions)` draws `questions[k]` for an index `k`
  uniformly distributed over `[0, questions.length)`.  The random draw is
  modelled by an explicit index parameter `pick : Nat`, reduced modulo the
  list length; uniformity statements quantify over the index.
* The session id `f"{candidate_name}_{datetime.now().isoformat()}"`
  involves the wall clock, so it is passed in as a parameter `sid`.
* The process-wide dict `current_interview_session` is modelled as an
  association list updated by prepending (newest binding shadows older
  ones, matching dict assignment for lookups).
-/

/-- `listMatchesAt pat s` is true when `pat` is an initial segment of `s`
(character-for-character comparison). -/
def listMatchesAt : List Char → List Char → Bool
  | [], _ => true
  | _ :: _, [] => false
  | p :: ps, c :: cs => p == c && listMatchesAt ps cs

/-- `listContainsSub pat s` is true when `pat` occurs contiguously inside
`s`; this is the semantics of Python's `pat in s` on strings. -/
def listContainsSub (pat : List Char) : List Char → Bool
  | [] => pat.isEmpty
  | c :: cs => listMatchesAt pat (c :: cs) || listContainsSub pat cs

/-- `hasSubstr s pat` models Python's `pat in s` substring test. -/
def hasSubstr (s pat : String) : Bool :=
  listContainsSub pat.data s.data

/-- Character-wise lowercasing, modelling `s.lower()` (per-character; the
patterns compared against are plain ASCII, for which this agrees with
Python). -/
def strLowerData (s : String) : List Char :=
  s.data.map Char.toLower

/-- `hasSubstrLower s pat` models Python's `pat in s.lower()`. -/
def hasSubstrLower (s pat : String) : Bool :=
  listContainsSub pat.data (strLowerData s)

/-- One iteration test of the score-extraction loop in `evaluate_response`
(src/main.py lines 398-404): at index `i` the loop breaks when
`f"score: {i}"` or `f"rating: {i}"` occurs in the lowercased text, or when
`f"{i}/10"` occurs in the raw text.  Both `if` statements assign `score = i`
and break, so a single disjunction captures the loop body. -/
def scoreMatch (i : Nat) (text : String) : Bool :=
  hasSubstrLower text ("score: " ++ toString i)
    || hasSubstrLower text ("rating: " ++ toString i)
    || hasSubstr text (toString i ++ "/10")

/-- The `for i in range(1, 11): ... break` loop: first element of the list
satisfying the test, defaulting to 7 (the initialisation `score = 7`). -/
def firstMatch (text : String) : List Nat → Nat
  | [] => 7
  | i :: rest => if scoreMatch i text then i else firstMatch text rest

/-- Score extraction from `evaluate_response` (src/main.py lines 394-404):
scan `i = 1, ..., 10` in ascending order, return the first `i` whose
pattern occurs, default 7. -/
def extractScore (text : String) : Nat :=
  firstMatch text (List.range' 1 10)

/-- The sentinel string returned by the knowledge base for unknown
(topic, level) pairs (src/main.py line 164). -/
def sentinelText : String :=
  "No questions found for the specified topic and level"

/-- The inlined knowledge-base table of `JavaSpringBootKnowledgeBase._run`
(src/main.py lines 50-159), as an association list mirroring the Python
dict literal (insertion order preserved, keys distinct). -/
def knowledge_base : List (String × List (String × List String)) :=
  [("core_java",
    [("junior",
      ["What is the difference between JDK, JRE, and JVM?",
       "Explain the concept of Object-Oriented Programming in Java.",
       "What are the access modifiers in Java?",
       "What is the difference between == and equals() method?",
       "Explain method overloading vs method overriding."]),
     ("mid",
      ["Explain the Java Memory Model and garbage collection.",
       "What are design patterns? Implement Singleton pattern.",
       "Discuss multithreading in Java and synchronization.",
       "Explain exception handling hierarchy in Java.",
       "What are Java 8 features like Streams and Lambda expressions?"]),
     ("senior",
      ["Explain JVM internals and memory management strategies.",
       "Discuss concurrent programming and java.util.concurrent package.",
       "How would you optimize Java application performance?",
       "Explain reflection and its use cases in frameworks.",
       "Discuss design patterns used in enterprise applications."])]),
   ("spring_boot",
    [("junior",
      ["What is Spring Boot and its advantages?",
       "Explain dependency injection in Spring.",
       "What are Spring Boot annotations like @Component, @Service?",
       "How do you create a REST API in Spring Boot?",
       "What is application.properties file used for?"]),
     ("mid",
      ["Explain Spring Boot auto-configuration mechanism.",
       "What are different ways to configure Spring Boot application?",
       "Discuss Spring Data JPA and its benefits.",
       "How do you handle exceptions in Spring Boot?",
       "Explain Spring Boot Actuator and its endpoints."]),
     ("senior",
      ["How would you implement microservices with Spring Boot?",
       "Discuss Spring Cloud components for distributed systems.",
       "Explain transaction management in Spring Boot.",
       "How do you implement security in Spring Boot applications?",
       "Discuss performance optimization strategies for Spring Boot apps."])]),
   ("microservices",
    [("mid",
      ["What are microservices and their advantages?",
       "How do you handle inter-service communication?",
       "Explain service discovery patterns.",
       "What is circuit breaker pattern?",
       "How do you manage configuration in microservices?"]),
     ("senior",
      ["Design a microservices architecture for an e-commerce platform.",
       "How do you handle distributed transactions?",
       "Explain event-driven architecture in microservices.",
       "Discuss monitoring and observability in microservices.",
       "How do you implement API gateway pattern?"])]),
   ("database",
    [("junior",
      ["What is the difference between SQL and NoSQL databases?",
       "Explain JDBC and how to connect to a database in Java.",
       "What are primary keys and foreign keys?",
       "How do you perform CRUD operations with Spring Data JPA?",
       "What is the difference between @Entity and @Table annotations?"]),
     ("mid",
      ["Explain database connection pooling and its benefits.",
       "What are JPA relationships and how do you map them?",
       "Discuss transaction management in Spring Boot.",
       "How do you optimize database queries in JPA?",
       "Explain the difference between lazy and eager loading."]),
     ("senior",
      ["How would you handle database migrations in production?",
       "Discuss database sharding and partitioning strategies.",
       "How do you implement database caching strategies?",
       "Explain distributed transaction patterns like Saga.",
       "How do you monitor and optimize database performance?"])]),
   ("testing",
    [("junior",
      ["What is unit testing and why is it important?",
       "How do you write unit tests with JUnit?",
       "What is the difference between @Test and @TestMethodOrder?",
       "How do you test REST APIs in Spring Boot?",
       "What are assertions in testing?"]),
     ("mid",
      ["Explain mocking and how to use Mockito.",
       "What is integration testing vs unit testing?",
       "How do you test Spring Boot applications with @SpringBootTest?",
       "Discuss test-driven development (TDD) approach.",
       "How do you test database layers with @DataJpaTest?"]),
     ("senior",
      ["How do you implement comprehensive testing strategies?",
       "Discuss contract testing and consumer-driven contracts.",
       "How do you test microservices interactions?",
       "Explain performance testing and load testing approaches.",
       "How do you implement continuous testing in CI/CD pipelines?"])])]

/-- The two nested `in` tests of `_run` (src/main.py line 161): `some qs`
exactly when `topic in knowledge_base and level in knowledge_base[topic]`. -/
def tableLookup (topic level : String) : Option (List String) :=
  match knowledge_base.lookup topic with
  | some levels => levels.lookup level
  | none => none

/-- `JavaSpringBootKnowledgeBase._run` (src/main.py lines 49-164), with the
`json.dumps`/`json.loads` round trip at the call boundary modelled as the
identity: the table entry when present, otherwise the one-element sentinel
list. -/
def JavaSpringBootKnowledgeBase.run (topic level : String) : List String :=
  match tableLookup topic level with
  | some questions => questions
  | none => [sentinelText]

/-- Request body of `POST /start-interview` (src/main.py lines 24-27). -/
structure InterviewRequest where
  candidate_name : String
  experience_level : String
  focus_areas : List String
deriving DecidableEq

/-- Request body of `POST /next-question` and `POST /evaluate-response`
(src/main.py lines 29-31). -/
structure QuestionResponse where
  question : String
  candidate_answer : String
deriving DecidableEq

/-- Response body of the three question endpoints (src/main.py lines 33-37). -/
structure InterviewResponse where
  question : String
  question_type : String
  difficulty : String
  topic : String
deriving DecidableEq

/-- Response body of `POST /evaluate-response` (src/main.py lines 39-42). -/
structure FeedbackResponse where
  score : Nat
  feedback : String
  suggestions : List String
deriving DecidableEq

/-- Response body of `GET /sample-questions/{topic}/{level}`
(src/main.py line 431). -/
structure SampleQuestionsResponse where
  topic : String
  level : String
  questions : List String
deriving DecidableEq

/-- One entry of `current_interview_session` (src/main.py lines 253-259).
The `responses` list is only ever created empty, so its element type is
immaterial; `String` is used. -/
structure Session where
  candidate : String
  level : String
  focus_areas : List String
  questions_asked : List InterviewResponse
  responses : List String
deriving DecidableEq

/-- The process-wide session dict, as an association list (newest binding
first). -/
abbrev SessionStore : Type := List (String × Session)

/-- `request.focus_areas[0] if request.focus_areas else "core_java"`
(src/main.py lines 214 and 266). -/
def chooseTopic (req : InterviewRequest) : String :=
  match req.focus_areas with
  | [] => "core_java"
  | t :: _ => t

/-- Canned-question selection of `start_interview` (src/main.py lines
215-221): if the lookup result is non-empty and its first element is not
the sentinel, `random.choice(questions)` (the pick index reduced modulo
the length); otherwise the fixed default question. -/
def select_question (req : InterviewRequest) (pick : Nat) : String :=
  let questions := JavaSpringBootKnowledgeBase.run (chooseTopic req) req.experience_level
  match questions with
  | [] => "What is your experience with Java development?"
  | q0 :: _ =>
    if q0 = sentinelText then "What is your experience with Java development?"
    else questions.getD (pick % questions.length) ""

/-- Task description built by `start_interview` (src/main.py lines 225-230). -/
def start_task_description (req : InterviewRequest) (selected_question : String) : String :=
  "You are interviewing " ++ req.candidate_name ++ ", a " ++ req.experience_level
    ++ " level Java developer.\n            Focus areas: "
    ++ String.intercalate ", " req.focus_areas
    ++ "\n            \n            Start with this technical question: \""
    ++ selected_question
    ++ "\"\n            \n            Present it in a friendly, professional manner. You can add context or rephrase it slightly to make it more conversational, but keep the core technical content."

/-- Task description built by `get_next_question` (src/main.py lines 285-293). -/
def next_task_description (resp : QuestionResponse) : String :=
  "Based on the candidate\x27s previous answer: \"" ++ resp.candidate_answer
    ++ "\"\n            to the question: \"" ++ resp.question
    ++ "\"\n            \n            Generate the next appropriate technical question. Consider:\n            1. The quality and depth of their previous answer\n            2. Whether to increase or decrease difficulty\n            3. Whether to explore the same topic deeper or move to a new area\n            \n            Provide a follow-up question that builds on their response. Keep it technical and relevant to Java/Spring Boot development."

/-- Task description built by `get_coding_question` (src/main.py lines 329-334). -/
def coding_task_description : String :=
  "Generate a coding challenge question suitable for a Java developer.\n            The question should require writing actual code and test their programming skills.\n            Examples: implement a data structure, solve an algorithm problem, write a Spring Boot service method.\n            Provide clear requirements and expected input/output.\n            \n            Make it practical and relevant to real-world Java development."

/-- Task description built by `evaluate_response` (src/main.py lines 368-380). -/
def evaluate_task_description (resp : QuestionResponse) : String :=
  "Evaluate this candidate\x27s response to a technical question:\n            \n            Question: " ++ resp.question
    ++ "\n            Answer: " ++ resp.candidate_answer
    ++ "\n            \n            Provide:\n            1. A score from 1-10 based on technical accuracy and completeness\n            2. Detailed feedback on their answer\n            3. Specific suggestions for improvement\n            4. What they did well (if anything)\n            5. What they missed or could improve\n            \n            Be constructive and helpful in your evaluation. Focus on technical aspects."

/-- `POST /start-interview` handler (src/main.py lines 208-277).  On
gateway success the response is the trimmed generated text with fixed
type/difficulty/topic fields and a fresh session is stored; on a raised
gateway error the `except` block recomputes topic and questions and
returns `questions[0]` (or the literal fallback when empty) without
touching the store. -/
def start_interview (req : InterviewRequest) (pick : Nat)
    (gw : String → Except Unit String) (store : SessionStore) (sid : String) :
    InterviewResponse × SessionStore :=
  let topic := chooseTopic req
  let questions := JavaSpringBootKnowledgeBase.run topic req.experience_level
  let selected_question := select_question req pick
  match gw (start_task_description req selected_question) with
  | Except.ok result =>
    let question_data : InterviewResponse :=
      ⟨result.trim, "technical", req.experience_level, topic⟩
    let sess : Session :=
      ⟨req.candidate_name, req.experience_level, req.focus_areas, [question_data], []⟩
    (question_data, (sid, sess) :: store)
  | Except.error _ =>
    let fallback_question :=
      match questions with
      | [] => "Tell me about your Java experience."
      | q :: _ => q
    (⟨fallback_question, "technical", req.experience_level, topic⟩, store)

/-- `POST /next-question` handler (src/main.py lines 279-322).  The
session store is never read or written here, matching the source. -/
def get_next_question (resp : QuestionResponse)
    (gw : String → Except Unit String) : InterviewResponse :=
  match gw (next_task_description resp) with
  | Except.ok result => ⟨result.trim, "technical", "adaptive", "follow_up"⟩
  | Except.error _ =>
    ⟨"Can you explain a challenging technical problem you\x27ve solved recently?",
     "technical", "adaptive", "problem_solving"⟩

/-- `POST /coding-question` handler (src/main.py lines 324-361). -/
def get_coding_question (gw : String → Except Unit String) : InterviewResponse :=
  match gw coding_task_description with
  | Except.ok result => ⟨result.trim, "coding", "practical", "programming"⟩
  | Except.error _ =>
    ⟨"Write a Java method to find the second largest element in an array of integers. Handle edge cases appropriately.",
     "coding", "practical", "programming"⟩

/-- `POST /evaluate-response` handler (src/main.py lines 363-423). -/
def evaluate_response (resp : QuestionResponse)
    (gw : String → Except Unit String) : FeedbackResponse :=
  match gw (evaluate_task_description resp) with
  | Except.ok result =>
    ⟨extractScore result, result,
     ["Practice with more examples", "Review the fundamentals",
      "Focus on implementation details"]⟩
  | Except.error _ =>
    ⟨5, "Unable to evaluate response at this time. Please try again.",
     ["Review the topic", "Practice more examples"]⟩

/-- `GET /sample-questions/{topic}/{level}` handler (src/main.py lines 425-431). -/
def get_sample_questions (topic level : String) : SampleQuestionsResponse :=
  ⟨topic, level, JavaSpringBootKnowledgeBase.run topic level⟩

/-- One API call, with the nondeterministic inputs (random pick, gateway
outcome, session id) carried as data. -/
inductive Op where
  | start : InterviewRequest → Nat → (String → Except Unit String) → String → Op
  | next : QuestionResponse → (String → Except Unit String) → Op
  | coding : (String → Except Unit String) → Op
  | evaluate : QuestionResponse → (String → Except Unit String) → Op
  | sample : String → String → Op
  | health : Op

/-- Effect of one API call on `current_interview_session`: only
`start_interview` writes to it; every other handler leaves it untouched
(none of them even mentions the dict in the source). -/
def stepStore (store : SessionStore) : Op → SessionStore
  | Op.start req pick gw sid => (start_interview req pick gw store sid).2
  | Op.next _ _ => store
  | Op.coding _ => store
  | Op.evaluate _ _ => store
  | Op.sample _ _ => store
  | Op.health => store

/-- The session store after a sequence of API calls, starting from the
empty dict created at module load (src/main.py line 204). -/
def runOps (ops : List Op) : SessionStore :=
  ops.foldl stepStore ([] : SessionStore)

/-! ### Helper lemmas -/

theorem listMatchesAt_of_append (p q : List Char) :
    ∀ s, listMatchesAt (p ++ q) s = true → listMatchesAt p s = true := by
  induction p with
  | nil => intro s _; rfl
  | cons a ps ih =>
    intro s h
    cases s with
    | nil => simp [listMatchesAt] at h
    | cons c cs =>
      simp only [List.cons_append, listMatchesAt, Bool.and_eq_true] at h ⊢
      exact ⟨h.1, ih cs h.2⟩

theorem listContainsSub_of_append (p q : List Char) :
    ∀ s, listContainsSub (p ++ q) s = true → listContainsSub p s = true := by
  intro s
  induction s with
  | nil =>
    intro h
    simp only [listContainsSub, List.isEmpty_iff, List.append_eq_nil] at h
    simp [listContainsSub, h.1]
  | cons c cs ih =>
    intro h
    simp only [listContainsSub, Bool.or_eq_true] at h ⊢
    rcases h with h | h
    · exact Or.inl (listMatchesAt_of_append p q _ h)
    · exact Or.inr (ih h)

theorem firstMatch_range'_pos (text : String) :
    ∀ n s i, s ≤ i → i < s + n → scoreMatch i text = true →
      (∀ j, j < i → s ≤ j → scoreMatch j text = false) →
      firstMatch text (List.range' s n) = i := by
  intro n
  induction n with
  | zero => intro s i h1 h2 _ _; omega
  | succ n ih =>
    intro s i h1 h2 hp hmin
    rw [List.range'_succ]
    by_cases hs : i = s
    · subst hs; simp [firstMatch, hp]
    · have hfail : scoreMatch s text = false := hmin s (by omega) (Nat.le_refl s)
      simp only [firstMatch, hfail, Bool.false_eq_true, if_false]
      exact ih (s + 1) i (by omega) (by omega) hp
        (fun j hj hj2 => hmin j hj (by omega))

theorem firstMatch_range'_default (text : String) :
    ∀ n s, (∀ j, j < s + n → s ≤ j → scoreMatch j text = false) →
      firstMatch text (List.range' s n) = 7 := by
  intro n
  induction n with
  | zero => intro s _; rfl
  | succ n ih =>
    intro s h
    rw [List.range'_succ]
    have hfail : scoreMatch s text = false := h s (by omega) (Nat.le_refl s)
    simp only [firstMatch, hfail, Bool.false_eq_true, if_false]
    exact ih (s + 1) (fun j hj hj2 => h j (by omega) (by omega))

theorem lookup_mem {β : Type} (a : String) :
    ∀ (l : List (String × β)) (b : β), l.lookup a = some b → ∃ k, (k, b) ∈ l := by
  intro l
  induction l with
  | nil => intro b h; simp [List.lookup] at h
  | cons p rest ih =>
    intro b h
    obtain ⟨k, v⟩ := p
    cases hk : a == k with
    | true =>
      rw [List.lookup, hk] at h
      have hb : some v = some b := h
      cases hb
      exact ⟨k, List.mem_cons_self _ _⟩
    | false =>
      rw [List.lookup, hk] at h
      obtain ⟨k2, hmem⟩ := ih b h
      exact ⟨k2, List.mem_cons_of_mem _ hmem⟩

/-- Every question list inlined in the table is non-empty and does not
start with the sentinel string. -/
theorem knowledge_base_lists_sound :
    ∀ p ∈ knowledge_base, ∀ q ∈ p.2, q.2 ≠ [] ∧ q.2.head? ≠ some sentinelText := by
  decide

theorem run_of_tableLookup (topic level : String) (qs : List String)
    (h : tableLookup topic level = some qs) :
    JavaSpringBootKnowledgeBase.run topic level = qs := by
  unfold JavaSpringBootKnowledgeBase.run
  rw [h]

theorem tableLookup_mem (topic level : String) (qs : List String)
    (h : tableLookup topic level = some qs) :
    ∃ p ∈ knowledge_base, ∃ q ∈ p.2, q.2 = qs := by
  unfold tableLookup at h
  cases hl : knowledge_base.lookup topic with
  | none => rw [hl] at h; exact absurd h (by simp)
  | some levels =>
    rw [hl] at h
    obtain ⟨k1, hmem1⟩ := lookup_mem topic knowledge_base levels hl
    obtain ⟨k2, hmem2⟩ := lookup_mem level levels qs h
    exact ⟨(k1, levels), hmem1, (k2, qs), hmem2, rfl⟩

theorem run_ne_nil (topic level : String) :
    JavaSpringBootKnowledgeBase.run topic level ≠ [] := by
  unfold JavaSpringBootKnowledgeBase.run
  cases h : tableLookup topic level with
  | none => simp
  | some qs =>
    obtain ⟨p, hp, q, hq, heq⟩ := tableLookup_mem topic level qs h
    have := (knowledge_base_lists_sound p hp q hq).1
    simpa [heq] using this

theorem run_head_sentinel (topic level : String)
    (h : (JavaSpringBootKnowledgeBase.run topic level).head? = some sentinelText) :
    JavaSpringBootKnowledgeBase.run topic level = [sentinelText] := by
  unfold JavaSpringBootKnowledgeBase.run at h ⊢
  cases ht : tableLookup topic level with
  | none => rfl
  | some qs =>
    rw [ht] at h
    obtain ⟨p, hp, q, hq, heq⟩ := tableLookup_mem topic level qs ht
    have hne := (knowledge_base_lists_sound p hp q hq).2
    rw [heq] at hne
    exact absurd h hne

/-! ### Claim theorems -/

/-- C1: score extraction scans `i = 1..10` in ascending order and returns
the first `i` whose pattern occurs — `"score: i"` or `"rating: i"` in the
lowercased text, or `"i/10"` in the raw text — defaulting to 7 when no `i`
matches; in particular text containing "Rating: 8" and no pattern for a
smaller `i` yields 8, and text with no recognized pattern yields 7. -/
theorem extractScore_spec :
    (∀ text i, 1 ≤ i → i ≤ 10 → scoreMatch i text = true →
        (∀ j, j < i → 1 ≤ j → scoreMatch j text = false) →
        extractScore text = i)
    ∧ (∀ text, (∀ i, i < 11 → 1 ≤ i → scoreMatch i text = false) →
        extractScore text = 7)
    ∧ extractScore "Overall Rating: 8 out of 10" = 8
    ∧ extractScore "The candidate gave a thorough answer." = 7 := by
  refine ⟨?_, ?_, by decide, by decide⟩
  · intro text i h1 h2 hp hmin
    unfold extractScore
    exact firstMatch_range'_pos text 10 1 i h1 (by omega) hp
      (fun j hj hj2 => hmin j hj hj2)
  · intro text h
    unfold extractScore
    exact firstMatch_range'_default text 10 1 (fun j hj hj2 => h j (by omega) hj2)

/-- Witness for `extractScore_spec` at concrete inputs. -/
theorem extractScore_spec_witness :
    extractScore "score: 3" = 3 ∧ extractScore "no numeric verdict" = 7 :=
  ⟨extractScore_spec.1 "score: 3" 3 (by decide) (by decide) (by decide) (by decide),
   extractScore_spec.2.1 "no numeric verdict" (by decide)⟩

/-- C10: any text whose lowercased form contains "score: 10" or
"rating: 10" is scored 1 by the ascending scan, never 10: the `i = 1`
pattern is a literal substring of the corresponding `i = 10` pattern, so
the loop breaks at `i = 1`. -/
theorem extractScore_ten_scores_one :
    ∀ text,
      hasSubstrLower text "score: 10" = true ∨ hasSubstrLower text "rating: 10" = true →
      extractScore text = 1 := by
  intro text h
  have h1 : scoreMatch 1 text = true := by
    rcases h with h | h
    · have hsub : hasSubstrLower text ("score: " ++ toString 1) = true := by
        unfold hasSubstrLower at h ⊢
        have e : ("score: 10" : String).data
            = ("score: " ++ toString 1 : String).data ++ ['0'] := by decide
        rw [e] at h
        exact listContainsSub_of_append _ _ _ h
      simp [scoreMatch, hsub]
    · have hsub : hasSubstrLower text ("rating: " ++ toString 1) = true := by
        unfold hasSubstrLower at h ⊢
        have e : ("rating: 10" : String).data
            = ("rating: " ++ toString 1 : String).data ++ ['0'] := by decide
        rw [e] at h
        exact listContainsSub_of_append _ _ _ h
      simp [scoreMatch, hsub]
  unfold extractScore
  exact firstMatch_range'_pos text 10 1 1 (Nat.le_refl 1) (by omega) h1
    (fun j hj hj2 => absurd hj (by omega))

/-- Witness for `extractScore_ten_scores_one`. -/
theorem extractScore_ten_scores_one_witness : extractScore "Final score: 10" = 1 :=
  extractScore_ten_scores_one "Final score: 10" (Or.inl (by decide))

/-- C2: for every (topic, level) pair absent from the table, the knowledge
base returns exactly the one-element sentinel list; and the lookup never
returns an empty list (it is a total function, so it never fails). -/
theorem run_absent_sentinel :
    (∀ topic level, tableLookup topic level = none →
        JavaSpringBootKnowledgeBase.run topic level = [sentinelText])
    ∧ (∀ topic level, JavaSpringBootKnowledgeBase.run topic level ≠ []) := by
  constructor
  · intro topic level h
    unfold JavaSpringBootKnowledgeBase.run
    rw [h]
  · exact run_ne_nil

/-- Witness for `run_absent_sentinel`: "microservices" has no "junior"
entry in the table. -/
theorem run_absent_sentinel_witness :
    JavaSpringBootKnowledgeBase.run "microservices" "junior" = [sentinelText] :=
  run_absent_sentinel.1 "microservices" "junior" (by decide)

/-- C3: for every (topic, level) pair present in the table, the knowledge
base returns exactly the documented list in the documented order, and
`GET /sample-questions/core_java/junior` returns topic, level, and the 5
documented junior core-Java questions in order. -/
theorem run_present_exact :
    (∀ topic level qs, tableLookup topic level = some qs →
        JavaSpringBootKnowledgeBase.run topic level = qs)
    ∧ get_sample_questions "core_java" "junior" =
        ⟨"core_java", "junior",
         ["What is the difference between JDK, JRE, and JVM?",
          "Explain the concept of Object-Oriented Programming in Java.",
          "What are the access modifiers in Java?",
          "What is the difference between == and equals() method?",
          "Explain method overloading vs method overriding."]⟩ :=
  ⟨run_of_tableLookup, by decide⟩

/-- Witness for `run_present_exact` at a concrete present pair. -/
theorem run_present_exact_witness :
    JavaSpringBootKnowledgeBase.run "spring_boot" "mid" =
      ["Explain Spring Boot auto-configuration mechanism.",
       "What are different ways to configure Spring Boot application?",
       "Discuss Spring Data JPA and its benefits.",
       "How do you handle exceptions in Spring Boot?",
       "Explain Spring Boot Actuator and its endpoints."] :=
  run_present_exact.1 "spring_boot" "mid" _ (by decide)

/-- C4: when the gateway raises during `POST /start-interview` with
focus_areas = ["core_java"] and experience_level = "junior", the handler
still returns a normal response: its question is one of the 5 documented
junior core-Java questions, with question_type "technical", difficulty
"junior" and topic "core_java". -/
theorem start_interview_fallback_core_java_junior :
    ∀ (name : String) (pick : Nat) (store : SessionStore) (sid : String),
      ∃ q ∈ ["What is the difference between JDK, JRE, and JVM?",
             "Explain the concept of Object-Oriented Programming in Java.",
             "What are the access modifiers in Java?",
             "What is the difference between == and equals() method?",
             "Explain method overloading vs method overriding."],
        (start_interview ⟨name, "junior", ["core_java"]⟩ pick
            (fun _ => Except.error ()) store sid).1 =
          ⟨q, "technical", "junior", "core_java"⟩ :=
  fun _ _ _ _ =>
    ⟨"What is the difference between JDK, JRE, and JVM?", by decide, rfl⟩

/-- C5: when the gateway raises during `POST /evaluate-response`, every
request receives score 5, the fixed apology feedback, and the two
documented fallback suggestions. -/
theorem evaluate_response_gateway_failure :
    ∀ resp, evaluate_response resp (fun _ => Except.error ()) =
      ⟨5, "Unable to evaluate response at this time. Please try again.",
       ["Review the topic", "Practice more examples"]⟩ :=
  fun _ => rfl

/-- C6: each of the four gateway-calling endpoints catches a raised
gateway error and still returns a normal response value (the handlers are
total functions into their response types, so no error escapes to the
caller): `POST /next-question` and `POST /coding-question` return one
fixed hardcoded fallback each, independent of the request; the
`POST /start-interview` fallback is independent of the random pick, the
store and the session id; and `POST /evaluate-response` returns the fixed
score-5 payload. -/
theorem endpoints_gateway_failure_fallback :
    (∀ resp, get_next_question resp (fun _ => Except.error ()) =
        ⟨"Can you explain a challenging technical problem you\x27ve solved recently?",
         "technical", "adaptive", "problem_solving"⟩)
    ∧ (get_coding_question (fun _ => Except.error ()) =
        ⟨"Write a Java method to find the second largest element in an array of integers. Handle edge cases appropriately.",
         "coding", "practical", "programming"⟩)
    ∧ (∀ req pick store sid,
        (start_interview req pick (fun _ => Except.error ()) store sid).1 =
          (start_interview req 0 (fun _ => Except.error ()) [] "any").1)
    ∧ (∀ resp, evaluate_response resp (fun _ => Except.error ()) =
        ⟨5, "Unable to evaluate response at this time. Please try again.",
         ["Review the topic", "Practice more examples"]⟩) :=
  ⟨fun _ => rfl, rfl, fun _ _ _ _ => rfl, fun _ => rfl⟩

/-- C9: when the gateway raises during `POST /start-interview`, the
session store is returned unchanged — the store write happens only after
the gateway call returns successfully. -/
theorem start_interview_failure_store_unchanged :
    ∀ (req : InterviewRequest) (pick : Nat) (store : SessionStore) (sid : String),
      (start_interview req pick (fun _ => Except.error ()) store sid).2 = store :=
  fun _ _ _ _ => rfl

theorem run_of_tableLookup_none (topic level : String)
    (h : tableLookup topic level = none) :
    JavaSpringBootKnowledgeBase.run topic level = [sentinelText] := by
  unfold JavaSpringBootKnowledgeBase.run
  rw [h]

theorem select_question_of_cons (req : InterviewRequest) (pick : Nat)
    (q0 : String) (rest : List String)
    (h : JavaSpringBootKnowledgeBase.run (chooseTopic req) req.experience_level = q0 :: rest)
    (h0 : q0 ≠ sentinelText) :
    select_question req pick = (q0 :: rest).getD (pick % (q0 :: rest).length) "" := by
  unfold select_question
  rw [h]
  simp [h0]

theorem select_question_of_sentinel (req : InterviewRequest) (pick : Nat)
    (h : JavaSpringBootKnowledgeBase.run (chooseTopic req) req.experience_level = [sentinelText]) :
    select_question req pick = "What is your experience with Java development?" := by
  unfold select_question
  rw [h]
  simp

/-- C7: on `POST /start-interview` the canned question is drawn uniformly
at random from `lookup(focus_areas[0], experience_level)` when
focus_areas is non-empty and from `lookup("core_java", experience_level)`
otherwise — the uniform draw being modelled by the pick index: every
index `k` below the list length selects the `k`-th question; when the
lookup returns the sentinel list the fixed default question is
substituted; and on the success path the response's topic equals the
chosen topic and its difficulty the requested experience level. -/
theorem start_interview_selection_spec :
    (∀ (req : InterviewRequest) (t : String) (rest : List String),
        req.focus_areas = t :: rest → chooseTopic req = t)
    ∧ (∀ req : InterviewRequest, req.focus_areas = [] → chooseTopic req = "core_java")
    ∧ (∀ (req : InterviewRequest) (k : Nat),
        JavaSpringBootKnowledgeBase.run (chooseTopic req) req.experience_level
            ≠ [sentinelText] →
        k < (JavaSpringBootKnowledgeBase.run (chooseTopic req) req.experience_level).length →
        select_question req k =
          (JavaSpringBootKnowledgeBase.run (chooseTopic req) req.experience_level).getD k "")
    ∧ (∀ (req : InterviewRequest) (k : Nat),
        JavaSpringBootKnowledgeBase.run (chooseTopic req) req.experience_level
            = [sentinelText] →
        select_question req k = "What is your experience with Java development?")
    ∧ (∀ (req : InterviewRequest) (pick : Nat) (store : SessionStore) (sid text : String),
        (start_interview req pick (fun _ => Except.ok text) store sid).1 =
          ⟨text.trim, "technical", req.experience_level, chooseTopic req⟩) := by
  refine ⟨?_, ?_, ?_, select_question_of_sentinel, fun _ _ _ _ _ => rfl⟩
  · intro req t rest h
    unfold chooseTopic
    rw [h]
  · intro req h
    unfold chooseTopic
    rw [h]
  · intro req k hs hk
    cases ht : tableLookup (chooseTopic req) req.experience_level with
    | none => exact absurd (run_of_tableLookup_none _ _ ht) hs
    | some qs =>
      have hrun : JavaSpringBootKnowledgeBase.run (chooseTopic req) req.experience_level = qs :=
        run_of_tableLookup _ _ _ ht
      obtain ⟨p, hp, q, hq2, heq⟩ := tableLookup_mem _ _ _ ht
      have hsound := knowledge_base_lists_sound p hp q hq2
      cases hqs : qs with
      | nil =>
        rw [hqs] at hrun
        exact absurd hrun (run_ne_nil _ _)
      | cons q0 rest =>
        have hhead : q0 ≠ sentinelText := by
          have := hsound.2
          rw [heq, hqs] at this
          simpa using this
        rw [hqs] at hrun
        rw [hrun] at hk
        rw [select_question_of_cons req k q0 rest hrun hhead, hrun,
          Nat.mod_eq_of_lt hk]

/-- Witness for `start_interview_selection_spec`: index 2 selects the
third junior core-Java question, and an unknown topic falls back to the
default question. -/
theorem start_interview_selection_spec_witness :
    select_question ⟨"Ada", "junior", ["core_java"]⟩ 2 =
        "What are the access modifiers in Java?"
    ∧ select_question ⟨"Ada", "junior", ["quantum"]⟩ 3 =
        "What is your experience with Java development?"
    ∧ chooseTopic ⟨"Ada", "junior", ["core_java"]⟩ = "core_java" :=
  ⟨(start_interview_selection_spec.2.2.1 ⟨"Ada", "junior", ["core_java"]⟩ 2
      (by decide) (by decide)).trans (by decide),
   start_interview_selection_spec.2.2.2.1 ⟨"Ada", "junior", ["quantum"]⟩ 3 (by decide),
   start_interview_selection_spec.1 ⟨"Ada", "junior", ["core_java"]⟩ "core_java" [] rfl⟩

theorem start_interview_store_shape (req : InterviewRequest) (pick : Nat)
    (gw : String → Except Unit String) (store : SessionStore) (sid : String) :
    (start_interview req pick gw store sid).2 = store ∨
    ∃ sess : Session, sess.responses = [] ∧
      (start_interview req pick gw store sid).2 = (sid, sess) :: store := by
  simp only [start_interview]
  cases hgw : gw (start_task_description req (select_question req pick)) with
  | ok result =>
    right
    exact ⟨⟨req.candidate_name, req.experience_level, req.focus_areas,
      [⟨result.trim, "technical", req.experience_level, chooseTopic req⟩], []⟩,
      rfl, rfl⟩
  | error e =>
    left
    rfl

theorem runOps_aux (ops : List Op) :
    ∀ store : SessionStore, (∀ p ∈ store, (Prod.snd p).responses = []) →
      ∀ p ∈ ops.foldl stepStore store, (Prod.snd p).responses = [] := by
  induction ops with
  | nil => intro store h; simpa using h
  | cons op rest ih =>
    intro store h
    rw [List.foldl_cons]
    apply ih
    intro p hp
    cases op with
    | start req pick gw sid =>
      have hshape := start_interview_store_shape req pick gw store sid
      simp only [stepStore] at hp
      rcases hshape with he | ⟨sess, hresp, he⟩
      · rw [he] at hp
        exact h p hp
      · rw [he] at hp
        rcases List.mem_cons.mp hp with rfl | hmem
        · simpa using hresp
        · exact h p hmem
    | next resp gw => exact h p hp
    | coding gw => exact h p hp
    | evaluate resp gw => exact h p hp
    | sample t l => exact h p hp
    | health => exact h p hp

/-- C8: across every sequence of endpoint operations starting from the
empty store, every stored session has an empty `responses` list:
`start_interview` creates the list empty and no handler ever appends to
it. -/
theorem session_responses_stay_empty :
    ∀ (ops : List Op) (sid : String) (sess : Session),
      (runOps ops).lookup sid = some sess → sess.responses = [] := by
  intro ops sid sess h
  obtain ⟨k, hmem⟩ := lookup_mem sid (runOps ops) sess h
  exact runOps_aux ops [] (by simp) (k, sess) hmem

/-- Witness for `session_responses_stay_empty` after one successful
start-interview call. -/
theorem session_responses_stay_empty_witness :
    (⟨"Ada", "junior", ["core_java"],
      [⟨("Welcome to the interview!").trim, "technical", "junior", "core_java"⟩],
      []⟩ : Session).responses = [] :=
  session_responses_stay_empty
    [Op.start ⟨"Ada", "junior", ["core_java"]⟩ 0
      (fun _ => Except.ok "Welcome to the interview!") "sid1"]
    "sid1" _ (by rfl)
